import Mathlib

/-!
Shallow embedding of the neomutt configuration core sample: the Regex config
codec (`config/regex.c`, provided as `src/unnamed/part_000`) and the Quad codec
behaviour exercised by `test/config/quad.c`.  C strings (`char *`) are modelled
as `List Char`, with `Option` marking possibly-NULL pointers.  The POSIX regex
engine (`regcomp` / `regerror`) is external to the repository and is abstracted
as a parameter `RegexEngine`.
-/

set_option autoImplicit false

namespace NeomuttConfig

/-- A C string (`char *` contents); `Option CStr` models a possibly NULL pointer. -/
abbrev CStr := List Char

/-- Modelled from the spec: result-classification codes of `config/set.h`
(`set.h` is included by the source but is not in the sample).  The source uses
`CSR_SUCCESS` with bitwise-or'd qualifier bits, masked by `CSR_RESULT`. -/
def CSR_SUCCESS : Nat := 0

/-- Modelled from the spec: `InternalError` result code (`CSR_ERR_CODE` in `set.h`). -/
def CSR_ERR_CODE : Nat := 1

/-- Modelled from the spec: `InvalidValue` result code (`CSR_ERR_INVALID` in `set.h`). -/
def CSR_ERR_INVALID : Nat := 3

/-- Modelled from the spec: qualifier bit `CSR_INV_VALIDATOR`, or'd into the
result when the validator vetoes a change (`ValidatorRejected`). -/
def CSR_INV_VALIDATOR : Nat := 32

/-- Modelled from the spec: qualifier bit `CSR_SUC_NO_CHANGE` (`Success·NoChange`). -/
def CSR_SUC_NO_CHANGE : Nat := 64

/-- Modelled from the spec: qualifier bit `CSR_SUC_EMPTY` (`Success·Empty`). -/
def CSR_SUC_EMPTY : Nat := 128

/-- Modelled from the spec: the `CSR_RESULT` macro masks the low nibble of a
result code, recovering the base classification. -/
def CSR_RESULT (x : Nat) : Nat := x &&& 15

/-- The regex-relevant bits of a definition's `type` flags word
(`DT_REGEX_MATCH_CASE`, `DT_REGEX_ALLOW_NOT`, `DT_REGEX_NOSUB` from `types.h`),
modelled as individual booleans. -/
structure RegexFlags where
  match_case : Bool
  allow_not : Bool
  nosub : Bool
  deriving DecidableEq

/-- The record of a `regcomp` call: the source string actually handed to the
engine (after any `!` strip) and the `REG_ICASE` / `REG_NOSUB` flags. -/
structure CompiledRegex where
  src : CStr
  icase : Bool
  nosub : Bool
  deriving DecidableEq

/-- `struct Regex` from `regex2.h` as used by the source: original pattern
text, owned compiled matcher, and the `not` negation flag. -/
structure Regex where
  pattern : CStr
  regex : CompiledRegex
  not : Bool
  deriving DecidableEq

/-- Abstraction of the external POSIX regex engine: which sources compile, and
the `regerror` diagnostic for those that do not. -/
structure RegexEngine where
  compileOk : CStr → Bool
  errMsg : CStr → CStr

/-- `struct ConfigDef`: the fields of the definition record that the regex
codec reads or writes (`type` flags, `validator`, `initial`, `DT_INITIAL_SET`). -/
structure ConfigDef where
  flags : RegexFlags
  validator : Option (Option Regex → Nat)
  initial : Option CStr
  initial_set : Bool

/-- Modelled from the spec: `mutt_str_strcmp` (`mutt/string2.h`, not in the
sample) is a NULL-safe string comparison treating NULL as the empty string;
the source only tests its result against zero. -/
def mutt_str_strcmp (a b : Option CStr) : Int :=
  if a.getD [] = b.getD [] then 0 else 1

/-- Modelled from the spec: `mutt_mb_is_lower` (`mutt/mbyte.c`, not in the
sample) reports whether the text contains no uppercase letters, driving the
smart-case heuristic. -/
def mutt_mb_is_lower (s : CStr) : Bool :=
  s.all (fun c => !c.isUpper)

/-- The `!`-prefix handling of `regex_create`: if the definition permits
negation and the text begins with `!`, strip it and flag negation. -/
def regex_strip (flags : RegexFlags) (str : CStr) : Bool × CStr :=
  match str with
  | [] => (false, [])
  | c :: rest =>
      if flags.allow_not && (c == '!') then (true, rest) else (false, c :: rest)

/-- `regex_create` from the source: duplicate the pattern text, choose
`REG_ICASE` by smart case (checked on the full text, before any strip),
`REG_NOSUB` from the flags, strip a permitted leading `!`, and compile.
Returns the new Regex, or `none` together with the engine diagnostic written
to the error sink. -/
def regex_create (engine : RegexEngine) (str : CStr) (flags : RegexFlags) :
    Option Regex × Option CStr :=
  if engine.compileOk (regex_strip flags str).2 then
    (some { pattern := str
            regex := { src := (regex_strip flags str).2
                       icase := !flags.match_case && mutt_mb_is_lower str
                       nosub := flags.nosub }
            not := (regex_strip flags str).1 }, none)
  else
    (none, some (engine.errMsg (regex_strip flags str).2))

/-- Outcome of `regex_string_set`: the new contents of `*var` (when the var
pointer was non-NULL), the possibly updated definition, the message written to
the error sink, and the result code. -/
structure StringSetResult where
  var : Option (Option Regex)
  cdef : ConfigDef
  err : Option CStr
  rc : Nat

/-- The validate-and-commit tail of `regex_string_set` (the code after the
no-change check and parse in the source): run the validator, if any, on the
proposed value `r`; on veto return `CSR_INV_VALIDATOR` leaving `*var` alone;
otherwise destroy the old value, install `r`, and add `CSR_SUC_EMPTY` when `r`
is NULL. -/
def regex_string_set_commit (curval : Option Regex) (cdef : ConfigDef)
    (r : Option Regex) : StringSetResult :=
  match cdef.validator with
  | some vf =>
      if CSR_RESULT (vf r) ≠ CSR_SUCCESS then
        { var := some curval, cdef := cdef, err := none
          rc := vf r ||| CSR_INV_VALIDATOR }
      else
        { var := some r, cdef := cdef, err := none
          rc := if r.isNone then vf r ||| CSR_SUC_EMPTY else vf r }
  | none =>
      { var := some r, cdef := cdef, err := none
        rc := if r.isNone then CSR_SUCCESS ||| CSR_SUC_EMPTY else CSR_SUCCESS }

/-- The no-change guard of `regex_string_set`: the current value is live and
its pattern compares equal (NULL-safely) to the normalised candidate text. -/
def string_set_guard (curval : Option Regex) (value : Option CStr) : Bool :=
  match curval with
  | some cv => mutt_str_strcmp value (some cv.pattern) == 0
  | none => false

/-- The parse-then-commit step of `regex_string_set`: a NULL candidate goes
straight to validate-and-commit; otherwise `regex_create` runs first and a
compile failure returns `CSR_ERR_INVALID` with the stored value untouched. -/
def regex_string_parse (engine : RegexEngine) (curval : Option Regex)
    (cdef : ConfigDef) : Option CStr → StringSetResult
  | none => regex_string_set_commit curval cdef none
  | some v =>
      match regex_create engine v cdef.flags with
      | (none, e) => { var := some curval, cdef := cdef, err := e, rc := CSR_ERR_INVALID }
      | (some r, _) => regex_string_set_commit curval cdef (some r)

/-- `regex_string_set` from the source: normalise empty text to NULL; with a
live var pointer, short-circuit on an identical current pattern, parse via
`regex_create`, then validate and commit; with a NULL var pointer, record the
text as the definition's initial value instead. -/
def regex_string_set (engine : RegexEngine) (var : Option (Option Regex))
    (cdef : ConfigDef) (value0 : Option CStr) : StringSetResult :=
  match var with
  | none =>
      { var := none
        cdef := { cdef with initial_set := true
                            initial := if value0 = some [] then none else value0 }
        err := none
        rc := CSR_SUCCESS }
  | some curval =>
      if string_set_guard curval (if value0 = some [] then none else value0) then
        { var := some curval, cdef := cdef, err := none
          rc := CSR_SUCCESS ||| CSR_SUC_NO_CHANGE }
      else
        regex_string_parse engine curval cdef (if value0 = some [] then none else value0)

/-- `regex_string_get` from the source: render the stored pattern (or, with a
NULL var pointer, the definition's initial value); unset yields
`Success·Empty` with nothing appended to the result buffer. -/
def regex_string_get (var : Option (Option Regex)) (cdef : ConfigDef) : Nat × CStr :=
  let str : Option CStr :=
    match var with
    | some (some r) => some r.pattern
    | some none => none
    | none => cdef.initial
  match str with
  | none => (CSR_SUCCESS ||| CSR_SUC_EMPTY, [])
  | some s => (CSR_SUCCESS, s)

/-- Outcome of `regex_native_set`: new contents of `*var`, error-sink message,
and result code. -/
structure NativeSetResult where
  var : Option Regex
  err : Option CStr
  rc : Nat
  deriving DecidableEq

/-- The install tail of `regex_native_set` (the code after the validator in
the source): for a non-empty source value, recompile its pattern with flags
rebuilt solely from its `not` field and install the fresh copy; an empty
source value installs NULL with `Success·Empty`; a failed recompile leaves the
stored value untouched. -/
def regex_native_install (engine : RegexEngine) (var : Option Regex)
    (value : Option Regex) : NativeSetResult :=
  match value with
  | some orig =>
      match regex_create engine orig.pattern
          { match_case := false, allow_not := orig.not, nosub := false } with
      | (some r, _) => { var := some r, err := none, rc := CSR_SUCCESS }
      | (none, e) => { var := var, err := e, rc := CSR_ERR_INVALID }
  | none => { var := none, err := none, rc := CSR_SUCCESS ||| CSR_SUC_EMPTY }

/-- `regex_native_set` from the source: run the validator on the caller's
value first; a veto leaves `*var` untouched; otherwise install a recompiled
copy via `regex_native_install`. -/
def regex_native_set (engine : RegexEngine) (var : Option Regex)
    (cdef : ConfigDef) (value : Option Regex) : NativeSetResult :=
  match cdef.validator with
  | some vf =>
      if CSR_RESULT (vf value) ≠ CSR_SUCCESS then
        { var := var, err := none, rc := vf value ||| CSR_INV_VALIDATOR }
      else regex_native_install engine var value
  | none => regex_native_install engine var value

/-- Modelled from the spec: the four Quad states, stored as small integers
0–3 (`MUTT_NO`, `MUTT_YES`, `MUTT_ASKNO`, `MUTT_ASKYES`); the Quad codec
itself (`config/quad.c`) is not in the sample, only its tests are. -/
def MUTT_NO : Nat := 0

/-- Modelled from the spec: the `Yes` Quad state. -/
def MUTT_YES : Nat := 1

/-- Modelled from the spec: the `AskNo` Quad state. -/
def MUTT_ASKNO : Nat := 2

/-- Modelled from the spec: the `AskYes` Quad state. -/
def MUTT_ASKYES : Nat := 3

/-- Modelled from the spec: `quad_toggle` cycles a Quad value through the
fixed table No→Yes, Yes→No, AskNo→AskYes, AskYes→AskNo (`config/quad.c` is
not in the sample; the table is stated in the spec and exercised by
`test/config/quad.c`). -/
def quad_toggle (v : Nat) : Nat :=
  if v = MUTT_NO then MUTT_YES
  else if v = MUTT_YES then MUTT_NO
  else if v = MUTT_ASKNO then MUTT_ASKYES
  else if v = MUTT_ASKYES then MUTT_ASKNO
  else v

/-- Modelled from the spec: the Quad codec's string parser accepts exactly the
four literal tokens `no`, `yes`, `ask-no`, `ask-yes` (`config/quad.c` is not
in the sample; the tokens are those of the spec scenario and the test file). -/
def quad_parse (s : CStr) : Option Nat :=
  if s = ['n', 'o'] then some MUTT_NO
  else if s = ['y', 'e', 's'] then some MUTT_YES
  else if s = ['a', 's', 'k', '-', 'n', 'o'] then some MUTT_ASKNO
  else if s = ['a', 's', 'k', '-', 'y', 'e', 's'] then some MUTT_ASKYES
  else none

/-- Modelled from the spec: the Quad codec's string-set rejects empty or NULL
text and any text that is not one of the four tokens, leaving the state
unchanged; an accepted token equal to the current value is `Success·NoChange`
(`config/quad.c` is not in the sample). -/
def quad_string_set (var : Nat) (value : Option CStr) : Nat × Nat :=
  match value with
  | none => (var, CSR_ERR_INVALID)
  | some s =>
      match quad_parse s with
      | none => (var, CSR_ERR_INVALID)
      | some v =>
          if v = var then (var, CSR_SUCCESS ||| CSR_SUC_NO_CHANGE)
          else (v, CSR_SUCCESS)

/-- A concrete engine on which every source compiles (for witnesses). -/
def engineAll : RegexEngine := { compileOk := fun _ => true, errMsg := fun _ => [] }

/-- A concrete engine on which no source compiles; its diagnostic prefixes the
source with `E`. -/
def engineNone : RegexEngine := { compileOk := fun _ => false, errMsg := fun s => 'E' :: s }

/-- Concrete flags: negation allowed, smart case allowed, submatches kept. -/
def flagsLax : RegexFlags := { match_case := false, allow_not := true, nosub := false }

/-- A concrete definition with no validator. -/
def cdefLax : ConfigDef :=
  { flags := flagsLax, validator := none, initial := none, initial_set := false }

/-- A validator that rejects every proposed value with `InvalidValue`. -/
def vetoAll : Option Regex → Nat := fun _ => CSR_ERR_INVALID

/-- A concrete definition whose validator rejects everything. -/
def cdefVeto : ConfigDef :=
  { flags := flagsLax, validator := some vetoAll, initial := none, initial_set := false }

/-- A validator that accepts every proposed value. -/
def acceptAll : Option Regex → Nat := fun _ => CSR_SUCCESS

/-- A concrete definition whose validator accepts everything. -/
def cdefAccept : ConfigDef :=
  { flags := flagsLax, validator := some acceptAll, initial := none, initial_set := false }

/-- A concrete definition that forces case-sensitive, no-submatch compilation. -/
def cdefForce : ConfigDef :=
  { flags := { match_case := true, allow_not := false, nosub := true }
    validator := none, initial := none, initial_set := false }

/-- A concrete stored Regex for the pattern `a`. -/
def rexA : Regex :=
  { pattern := ['a'], regex := { src := ['a'], icase := true, nosub := false }, not := false }

/-- The Regex produced by compiling `!a` under `flagsLax` on `engineAll`. -/
def rexBangA : Regex :=
  { pattern := ['!', 'a'], regex := { src := ['a'], icase := true, nosub := false }, not := true }

theorem land_lor_distrib (a b c : Nat) : (a ||| b) &&& c = (a &&& c) ||| (b &&& c) := by
  apply Nat.eq_of_testBit_eq
  intro i
  simp [Nat.testBit_land, Nat.testBit_lor, Bool.and_or_distrib_right]

theorem lor_land_absorb (v w : Nat) : (v ||| w) &&& w = w := by
  apply Nat.eq_of_testBit_eq
  intro i
  rw [Nat.testBit_land, Nat.testBit_lor]
  cases hw : w.testBit i <;> simp [hw]

theorem lor_inv_validator_ne_invalid (v : Nat) : v ||| CSR_INV_VALIDATOR ≠ CSR_ERR_INVALID := by
  intro h
  have h5 : (v ||| 32).testBit 5 = (3 : Nat).testBit 5 := by
    rw [show (32 : Nat) = CSR_INV_VALIDATOR from rfl, show (3 : Nat) = CSR_ERR_INVALID from rfl, h]
  rw [Nat.testBit_lor, show Nat.testBit 32 5 = true from by decide,
      show Nat.testBit 3 5 = false from by decide] at h5
  simp at h5

theorem CSR_RESULT_lor_inv (v : Nat) : CSR_RESULT (v ||| CSR_INV_VALIDATOR) = CSR_RESULT v := by
  show (v ||| 32) &&& 15 = v &&& 15
  rw [land_lor_distrib, show (32 : Nat) &&& 15 = 0 from by decide]
  simp

theorem CSR_RESULT_lor_empty (v : Nat) : CSR_RESULT (v ||| CSR_SUC_EMPTY) = CSR_RESULT v := by
  show (v ||| 128) &&& 15 = v &&& 15
  rw [land_lor_distrib, show (128 : Nat) &&& 15 = 0 from by decide]
  simp

theorem mutt_mb_is_lower_bang (rest : CStr) :
    mutt_mb_is_lower ('!' :: rest) = mutt_mb_is_lower rest := by
  simp only [mutt_mb_is_lower, List.all_cons]
  rw [show (!('!' : Char).isUpper) = true from by decide, Bool.true_and]

theorem regex_strip_eq (flags : RegexFlags) (str : CStr) :
    regex_strip flags str =
      (flags.allow_not && (str.head? == some '!'),
       if flags.allow_not && (str.head? == some '!') then str.tail else str) := by
  cases str with
  | nil =>
      rw [show ((List.head? ([] : CStr)) == some '!') = false from rfl, Bool.and_false,
          if_neg (by simp)]
      rfl
  | cons c rest =>
      have hsome : ((List.head? (c :: rest)) == some '!') = (c == '!') := rfl
      simp only [regex_strip, hsome, List.tail_cons]
      by_cases h : (flags.allow_not && (c == '!')) = true
      · rw [if_pos h, if_pos h, h]
      · have hb : (flags.allow_not && (c == '!')) = false := by
          cases hx : flags.allow_not && (c == '!')
          · rfl
          · exact absurd hx h
        rw [if_neg h, if_neg h, hb]

theorem quad_toggle_iterate_inv (v : Nat) (hv : v < 4) (n : Nat) :
    quad_toggle^[n] v < 4 ∧ (quad_toggle^[n] v < 2 ↔ v < 2) := by
  induction n with
  | zero => simpa using hv
  | succ n ih =>
      rw [Function.iterate_succ_apply']
      have step : ∀ w, w < 4 → quad_toggle w < 4 ∧ (quad_toggle w < 2 ↔ w < 2) := by
        intro w hw
        interval_cases w <;> decide
      exact ⟨(step _ ih.1).1, (step _ ih.1).2.trans ih.2⟩

theorem mutt_str_strcmp_eq_zero_iff (a b : Option CStr) :
    mutt_str_strcmp a b = 0 ↔ a.getD [] = b.getD [] := by
  unfold mutt_str_strcmp
  split <;> simp_all

theorem regex_create_of_compileOk (engine : RegexEngine) (v : CStr) (flags : RegexFlags)
    (h : engine.compileOk (regex_strip flags v).2 = true) :
    regex_create engine v flags =
      (some { pattern := v
              regex := { src := (regex_strip flags v).2
                         icase := !flags.match_case && mutt_mb_is_lower v
                         nosub := flags.nosub }
              not := (regex_strip flags v).1 }, none) := by
  unfold regex_create
  rw [if_pos h]

theorem regex_create_of_compileFail (engine : RegexEngine) (v : CStr) (flags : RegexFlags)
    (h : engine.compileOk (regex_strip flags v).2 = false) :
    regex_create engine v flags = (none, some (engine.errMsg (regex_strip flags v).2)) := by
  unfold regex_create
  rw [h, if_neg Bool.false_ne_true]

theorem regex_create_pattern_eq (engine : RegexEngine) (v : CStr) (flags : RegexFlags)
    (r : Regex) (e : Option CStr) (h : regex_create engine v flags = (some r, e)) :
    r.pattern = v := by
  unfold regex_create at h
  split at h
  · injection h with h1 _
    injection h1 with h1
    subst h1
    rfl
  · exact absurd h (by simp)

theorem string_set_guard_true (engine : RegexEngine) (cur : Option Regex)
    (cdef : ConfigDef) (value0 : Option CStr)
    (hg : string_set_guard cur (if value0 = some [] then none else value0) = true) :
    regex_string_set engine (some cur) cdef value0 =
      { var := some cur, cdef := cdef, err := none
        rc := CSR_SUCCESS ||| CSR_SUC_NO_CHANGE } := by
  unfold regex_string_set
  dsimp only
  rw [hg, if_pos rfl]

theorem string_set_guard_false (engine : RegexEngine) (cur : Option Regex)
    (cdef : ConfigDef) (value0 : Option CStr)
    (hg : string_set_guard cur (if value0 = some [] then none else value0) = false) :
    regex_string_set engine (some cur) cdef value0 =
      regex_string_parse engine cur cdef (if value0 = some [] then none else value0) := by
  unfold regex_string_set
  dsimp only
  rw [hg, if_neg Bool.false_ne_true]

theorem commit_no_validator (curval : Option Regex) (cdef : ConfigDef) (r : Option Regex)
    (h : cdef.validator = none) :
    regex_string_set_commit curval cdef r =
      { var := some r, cdef := cdef, err := none
        rc := if r.isNone then CSR_SUCCESS ||| CSR_SUC_EMPTY else CSR_SUCCESS } := by
  simp only [regex_string_set_commit, h]

theorem commit_reject (curval : Option Regex) (cdef : ConfigDef) (r : Option Regex)
    (vf : Option Regex → Nat) (hv : cdef.validator = some vf)
    (hr : CSR_RESULT (vf r) ≠ CSR_SUCCESS) :
    regex_string_set_commit curval cdef r =
      { var := some curval, cdef := cdef, err := none
        rc := vf r ||| CSR_INV_VALIDATOR } := by
  simp only [regex_string_set_commit, hv]
  rw [if_pos hr]

theorem commit_accept (curval : Option Regex) (cdef : ConfigDef) (r : Option Regex)
    (vf : Option Regex → Nat) (hv : cdef.validator = some vf)
    (hr : CSR_RESULT (vf r) = CSR_SUCCESS) :
    regex_string_set_commit curval cdef r =
      { var := some r, cdef := cdef, err := none
        rc := if r.isNone then vf r ||| CSR_SUC_EMPTY else vf r } := by
  simp only [regex_string_set_commit, hv]
  rw [if_neg (by simp [hr])]

/-- C1: if the validator rejects the proposed value, both `regex_string_set`
(on a candidate that is not short-circuited and parses) and `regex_native_set`
return a code carrying the `CSR_INV_VALIDATOR` qualifier — distinct from plain
`CSR_ERR_INVALID` — and the stored value is left untouched, so the proposed
value is never committed. -/
theorem regex_validator_veto_unchanged (engine : RegexEngine) (cur : Option Regex)
    (cdef : ConfigDef) (vf : Option Regex → Nat) (value0 : Option CStr) (nval : Option Regex)
    (hvf : cdef.validator = some vf)
    (hrej : ∀ p, CSR_RESULT (vf p) ≠ CSR_SUCCESS)
    (hguard : ∀ cv, cur = some cv →
        mutt_str_strcmp (if value0 = some [] then none else value0) (some cv.pattern) ≠ 0)
    (hcomp : ∀ v, (if value0 = some [] then none else value0) = some v →
        engine.compileOk (regex_strip cdef.flags v).2 = true) :
    ((regex_string_set engine (some cur) cdef value0).var = some cur ∧
     (regex_string_set engine (some cur) cdef value0).rc &&& CSR_INV_VALIDATOR =
       CSR_INV_VALIDATOR ∧
     (regex_string_set engine (some cur) cdef value0).rc ≠ CSR_ERR_INVALID) ∧
    ((regex_native_set engine cur cdef nval).var = cur ∧
     (regex_native_set engine cur cdef nval).rc &&& CSR_INV_VALIDATOR = CSR_INV_VALIDATOR ∧
     (regex_native_set engine cur cdef nval).rc ≠ CSR_ERR_INVALID) := by
  have hg : string_set_guard cur (if value0 = some [] then none else value0) = false := by
    cases cur with
    | none => rfl
    | some cv => simpa [string_set_guard] using hguard cv rfl
  have hstr : ∃ p, regex_string_set engine (some cur) cdef value0 =
      { var := some cur, cdef := cdef, err := none, rc := vf p ||| CSR_INV_VALIDATOR } := by
    rw [string_set_guard_false engine cur cdef value0 hg]
    cases hnv : (if value0 = some [] then none else value0) with
    | none => exact ⟨none, commit_reject cur cdef none vf hvf (hrej none)⟩
    | some v =>
        unfold regex_string_parse
        dsimp only
        rw [regex_create_of_compileOk engine v cdef.flags (hcomp v hnv)]
        exact ⟨_, commit_reject cur cdef _ vf hvf (hrej _)⟩
  have hnat : regex_native_set engine cur cdef nval =
      { var := cur, err := none, rc := vf nval ||| CSR_INV_VALIDATOR } := by
    simp only [regex_native_set, hvf]
    rw [if_pos (hrej nval)]
  obtain ⟨p, hp⟩ := hstr
  rw [hp, hnat]
  exact ⟨⟨rfl, lor_land_absorb _ _, lor_inv_validator_ne_invalid _⟩,
    ⟨rfl, lor_land_absorb _ _, lor_inv_validator_ne_invalid _⟩⟩

theorem regex_validator_veto_unchanged_witness :
    (regex_string_set engineAll (some none) cdefVeto (some ['a'])).var = some none ∧
    (regex_native_set engineAll none cdefVeto none).var = none := by
  have h := regex_validator_veto_unchanged engineAll none cdefVeto vetoAll (some ['a']) none
    rfl (fun p => by simp only [vetoAll]; decide) (fun cv h => Option.noConfusion h)
    (fun v _ => rfl)
  exact ⟨h.1.1, h.2.1⟩

/-- C4: if the candidate pattern fails to compile, `regex_string_set` returns
`CSR_ERR_INVALID` with the engine's diagnostic written to the error sink, and
the previously stored value is preserved unchanged. -/
theorem regex_compile_failure_invalid (engine : RegexEngine) (cur : Option Regex)
    (cdef : ConfigDef) (x : CStr)
    (hx : x ≠ [])
    (hguard : ∀ cv, cur = some cv → cv.pattern ≠ x)
    (hcomp : engine.compileOk (regex_strip cdef.flags x).2 = false) :
    regex_string_set engine (some cur) cdef (some x) =
      { var := some cur, cdef := cdef
        err := some (engine.errMsg (regex_strip cdef.flags x).2)
        rc := CSR_ERR_INVALID } ∧
    CSR_RESULT CSR_ERR_INVALID ≠ CSR_SUCCESS := by
  have hnv : (if (some x : Option CStr) = some [] then none else some x) = some x := by
    rw [if_neg (by simpa using hx)]
  have hg : string_set_guard cur
      (if (some x : Option CStr) = some [] then none else some x) = false := by
    cases cur with
    | none => rfl
    | some cv =>
        rw [hnv]
        simp only [string_set_guard, beq_eq_false_iff_ne, ne_eq, mutt_str_strcmp_eq_zero_iff,
          Option.getD_some]
        exact fun he => hguard cv rfl he.symm
  refine ⟨?_, by decide⟩
  rw [string_set_guard_false engine cur cdef (some x) hg, hnv]
  unfold regex_string_parse
  dsimp only
  rw [regex_create_of_compileFail engine x cdef.flags hcomp]

/-- Recorded behaviour at a concrete failing engine for C4. -/
theorem regex_compile_failure_invalid_witness :
    regex_string_set engineNone (some none) cdefLax (some ['a']) =
      { var := some none, cdef := cdefLax
        err := some (engineNone.errMsg (regex_strip cdefLax.flags ['a']).2)
        rc := CSR_ERR_INVALID } ∧
    CSR_RESULT CSR_ERR_INVALID ≠ CSR_SUCCESS :=
  regex_compile_failure_invalid engineNone none cdefLax ['a'] (by decide)
    (fun cv h => Option.noConfusion h) rfl

/-- C9: `regex_native_set` never consults the definition's regex flags — only
its validator — so two definitions with the same validator give identical
results; and a value read back from string-set storage, re-installed through
native-set on the same definition, is recompiled with flags derived solely
from its `not` field, so the stored copy's case-sensitivity and submatch mode
differ from those string-set produced. -/
theorem regex_native_set_flags_not_consulted :
    (∀ (engine : RegexEngine) (var : Option Regex) (cdefA cdefB : ConfigDef)
        (value : Option Regex), cdefA.validator = cdefB.validator →
        regex_native_set engine var cdefA value = regex_native_set engine var cdefB value) ∧
    (∃ rs rn : Regex,
        (regex_string_set engineAll (some none) cdefForce (some ['a', 'b', 'c'])).var =
          some (some rs) ∧
        (regex_native_set engineAll (some rs) cdefForce (some rs)).var = some rn ∧
        rn.pattern = rs.pattern ∧
        rn.regex.icase ≠ rs.regex.icase ∧
        rn.regex.nosub ≠ rs.regex.nosub) := by
  constructor
  · intro engine var cdefA cdefB value h
    unfold regex_native_set
    rw [h]
  · refine ⟨{ pattern := ['a', 'b', 'c']
              regex := { src := ['a', 'b', 'c'], icase := false, nosub := true }
              not := false },
            { pattern := ['a', 'b', 'c']
              regex := { src := ['a', 'b', 'c'], icase := true, nosub := false }
              not := false }, ?_, ?_, ?_, ?_, ?_⟩ <;> decide

theorem regex_native_set_flags_not_consulted_witness :
    regex_native_set engineAll none cdefLax none =
      regex_native_set engineAll none cdefForce none :=
  regex_native_set_flags_not_consulted.1 engineAll none cdefLax cdefForce none rfl

theorem string_set_success_var (engine : RegexEngine) (cur : Option Regex)
    (cdef : ConfigDef) (x : CStr)
    (hsuc : CSR_RESULT (regex_string_set engine (some cur) cdef (some x)).rc = CSR_SUCCESS) :
    ((regex_string_set engine (some cur) cdef (some x)).var = some none ∧ x = []) ∨
    (∃ cv' : Regex, (regex_string_set engine (some cur) cdef (some x)).var = some (some cv') ∧
      cv'.pattern = x) := by
  have hval : (if (some x : Option CStr) = some [] then none else some x).getD [] = x := by
    by_cases hx : x = []
    · rw [if_pos (by rw [hx])]
      exact hx.symm
    · rw [if_neg (by simpa using hx)]
      rfl
  by_cases hg : string_set_guard cur
      (if (some x : Option CStr) = some [] then none else some x) = true
  · cases cur with
    | none => exact absurd hg (by simp [string_set_guard])
    | some cv =>
        right
        refine ⟨cv, ?_, ?_⟩
        · rw [string_set_guard_true engine (some cv) cdef (some x) hg]
        · simp only [string_set_guard] at hg
          have h0 := (mutt_str_strcmp_eq_zero_iff _ _).mp (eq_of_beq hg)
          rw [Option.getD_some] at h0
          rw [← h0]
          exact hval
  · have hg' : string_set_guard cur
        (if (some x : Option CStr) = some [] then none else some x) = false := by
      cases h2 : string_set_guard cur
          (if (some x : Option CStr) = some [] then none else some x)
      · rfl
      · exact absurd h2 hg
    rw [string_set_guard_false engine cur cdef (some x) hg'] at hsuc ⊢
    by_cases hx : x = []
    · have hnv : (if (some x : Option CStr) = some [] then none else some x) = none := by
        rw [if_pos (by rw [hx])]
      rw [hnv] at hsuc ⊢
      left
      refine ⟨?_, hx⟩
      have hpn : regex_string_parse engine cur cdef none =
          regex_string_set_commit cur cdef none := rfl
      rw [hpn] at hsuc ⊢
      rcases hvd : cdef.validator with _ | vf
      · rw [commit_no_validator cur cdef none hvd]
      · by_cases hr : CSR_RESULT (vf none) = CSR_SUCCESS
        · rw [commit_accept cur cdef none vf hvd hr]
        · rw [commit_reject cur cdef none vf hvd hr] at hsuc
          dsimp only at hsuc
          rw [CSR_RESULT_lor_inv] at hsuc
          exact absurd hsuc hr
    · have hnv : (if (some x : Option CStr) = some [] then none else some x) = some x := by
        rw [if_neg (by simpa using hx)]
      rw [hnv] at hsuc ⊢
      obtain ⟨ro, e, hc⟩ : ∃ ro e, regex_create engine x cdef.flags = (ro, e) :=
        ⟨(regex_create engine x cdef.flags).1, (regex_create engine x cdef.flags).2, rfl⟩
      have hps : regex_string_parse engine cur cdef (some x) =
          match regex_create engine x cdef.flags with
          | (none, e) => { var := some cur, cdef := cdef, err := e, rc := CSR_ERR_INVALID }
          | (some r, _) => regex_string_set_commit cur cdef (some r) := rfl
      rw [hps, hc] at hsuc ⊢
      cases ro with
      | none =>
          dsimp only at hsuc
          exact absurd hsuc (by decide)
      | some r =>
          dsimp only at hsuc ⊢
          right
          refine ⟨r, ?_, regex_create_pattern_eq engine x cdef.flags r e hc⟩
          rcases hvd : cdef.validator with _ | vf
          · rw [commit_no_validator cur cdef (some r) hvd]
          · by_cases hr : CSR_RESULT (vf (some r)) = CSR_SUCCESS
            · rw [commit_accept cur cdef (some r) vf hvd hr]
            · rw [commit_reject cur cdef (some r) vf hvd hr] at hsuc
              dsimp only at hsuc
              rw [CSR_RESULT_lor_inv] at hsuc
              exact absurd hsuc hr

/-- C2: any text the regex codec's string-set accepts (a permitted leading `!`
included) is rendered back verbatim, character for character, by string-get. -/
theorem regex_string_roundtrip (engine : RegexEngine) (cur : Option Regex)
    (cdef : ConfigDef) (x : CStr)
    (hsuc : CSR_RESULT (regex_string_set engine (some cur) cdef (some x)).rc = CSR_SUCCESS) :
    (regex_string_get (regex_string_set engine (some cur) cdef (some x)).var
        (regex_string_set engine (some cur) cdef (some x)).cdef).2 = x := by
  rcases string_set_success_var engine cur cdef x hsuc with ⟨hv, hx⟩ | ⟨cv', hv, hp⟩
  · rw [hv, hx]
    rfl
  · rw [hv]
    exact hp

theorem regex_string_roundtrip_witness :
    (regex_string_get
        (regex_string_set engineAll (some none) cdefLax (some ['!', 'a'])).var
        (regex_string_set engineAll (some none) cdefLax (some ['!', 'a'])).cdef).2 =
      ['!', 'a'] :=
  regex_string_roundtrip engineAll none cdefLax ['!', 'a'] (by decide)

/-- C5: string-set on a live value whose pattern equals the candidate text
returns `Success·NoChange` with nothing touched — for any validator, which is
therefore never consulted — and after any successful string-set that leaves
live storage, repeating the same text yields `Success·NoChange`. -/
theorem regex_string_set_no_change_idempotent (engine : RegexEngine) (cdef : ConfigDef)
    (x : CStr) :
    (∀ cv : Regex, cv.pattern = x →
        regex_string_set engine (some (some cv)) cdef (some x) =
          { var := some (some cv), cdef := cdef, err := none
            rc := CSR_SUCCESS ||| CSR_SUC_NO_CHANGE }) ∧
    (∀ (cur : Option Regex) (cv' : Regex),
        CSR_RESULT (regex_string_set engine (some cur) cdef (some x)).rc = CSR_SUCCESS →
        (regex_string_set engine (some cur) cdef (some x)).var = some (some cv') →
        (regex_string_set engine (some (some cv')) cdef (some x)).rc =
          CSR_SUCCESS ||| CSR_SUC_NO_CHANGE) := by
  have hval : (if (some x : Option CStr) = some [] then none else some x).getD [] = x := by
    by_cases hx : x = []
    · rw [if_pos (by rw [hx])]
      exact hx.symm
    · rw [if_neg (by simpa using hx)]
      rfl
  have ha : ∀ cv : Regex, cv.pattern = x →
      regex_string_set engine (some (some cv)) cdef (some x) =
        { var := some (some cv), cdef := cdef, err := none
          rc := CSR_SUCCESS ||| CSR_SUC_NO_CHANGE } := by
    intro cv hp
    apply string_set_guard_true
    simp only [string_set_guard]
    rw [beq_iff_eq, mutt_str_strcmp_eq_zero_iff, Option.getD_some, hval, hp]
  refine ⟨ha, ?_⟩
  intro cur cv' hsuc hvar
  rcases string_set_success_var engine cur cdef x hsuc with ⟨hv, _⟩ | ⟨cv2, hv, hp⟩
  · rw [hv] at hvar
    exact absurd hvar (by simp)
  · rw [hv] at hvar
    obtain rfl : cv2 = cv' := by simpa using hvar
    rw [ha _ hp]

theorem regex_string_set_no_change_idempotent_witness :
    regex_string_set engineAll (some (some rexA)) cdefLax (some ['a']) =
      { var := some (some rexA), cdef := cdefLax, err := none
        rc := CSR_SUCCESS ||| CSR_SUC_NO_CHANGE } ∧
    (regex_string_set engineAll (some (some rexA)) cdefLax (some ['a'])).rc =
      CSR_SUCCESS ||| CSR_SUC_NO_CHANGE := by
  have h := regex_string_set_no_change_idempotent engineAll cdefLax ['a']
  exact ⟨h.1 rexA rfl, h.2 (some rexA) rexA (by decide) (by decide)⟩

/-- C6: a successful native-set of a non-empty value installs a deep copy: the
stored Regex is freshly produced by `regex_create` (the pattern text is
duplicated and recompiled into a fresh matcher, not aliased), and its pattern
text equals the caller's. -/
theorem regex_native_set_deep_copy (engine : RegexEngine) (var : Option Regex)
    (cdef : ConfigDef) (orig : Regex)
    (hval : ∀ vf, cdef.validator = some vf → CSR_RESULT (vf (some orig)) = CSR_SUCCESS)
    (hcomp : engine.compileOk
        (regex_strip { match_case := false, allow_not := orig.not, nosub := false }
          orig.pattern).2 = true) :
    ∃ r : Regex,
      regex_native_set engine var cdef (some orig) =
        { var := some r, err := none, rc := CSR_SUCCESS } ∧
      r.pattern = orig.pattern ∧
      (regex_create engine orig.pattern
          { match_case := false, allow_not := orig.not, nosub := false }).1 = some r := by
  obtain ⟨R, hR⟩ : ∃ R, regex_create engine orig.pattern
      { match_case := false, allow_not := orig.not, nosub := false } = (some R, none) :=
    ⟨_, regex_create_of_compileOk engine orig.pattern _ hcomp⟩
  have hinst : regex_native_install engine var (some orig) =
      { var := some R, err := none, rc := CSR_SUCCESS } := by
    unfold regex_native_install
    dsimp only
    rw [hR]
  refine ⟨R, ?_, regex_create_pattern_eq engine orig.pattern _ R none hR, by rw [hR]⟩
  rcases hvd : cdef.validator with _ | vf
  · simp only [regex_native_set, hvd]
    exact hinst
  · simp only [regex_native_set, hvd]
    rw [if_neg (not_not.mpr (hval vf hvd))]
    exact hinst

theorem regex_native_set_deep_copy_witness :
    ∃ r : Regex,
      regex_native_set engineAll none cdefLax (some rexA) =
        { var := some r, err := none, rc := CSR_SUCCESS } ∧
      r.pattern = rexA.pattern ∧
      (regex_create engineAll rexA.pattern
          { match_case := false, allow_not := rexA.not, nosub := false }).1 = some r :=
  regex_native_set_deep_copy engineAll none cdefLax rexA
    (fun _ h => Option.noConfusion h) rfl

/-- C8: for a quad item, string-set of empty text and of a non-token both fail
with `CSR_ERR_INVALID` and leave the state unchanged, while for a regex item
string-set of empty text succeeds, stores unset, and returns `Success·Empty`. -/
theorem invalid_input_quad_vs_regex_empty (vq : Nat) (engine : RegexEngine)
    (cdef : ConfigDef) (cur : Option Regex)
    (hval : cdef.validator = none)
    (hcur : ∀ cv, cur = some cv → cv.pattern ≠ []) :
    (quad_string_set vq (some []) = (vq, CSR_ERR_INVALID) ∧
     quad_string_set vq (some ['n', 'o', 'p', 'e']) = (vq, CSR_ERR_INVALID) ∧
     CSR_RESULT CSR_ERR_INVALID ≠ CSR_SUCCESS) ∧
    regex_string_set engine (some cur) cdef (some []) =
      { var := some none, cdef := cdef, err := none
        rc := CSR_SUCCESS ||| CSR_SUC_EMPTY } := by
  refine ⟨⟨rfl, rfl, by decide⟩, ?_⟩
  have hg : string_set_guard cur
      (if (some ([] : CStr) : Option CStr) = some [] then none else some []) = false := by
    cases cur with
    | none => rfl
    | some cv =>
        rw [if_pos rfl]
        simp only [string_set_guard, beq_eq_false_iff_ne, ne_eq, mutt_str_strcmp_eq_zero_iff,
          Option.getD_none, Option.getD_some]
        exact fun he => hcur cv rfl he.symm
  rw [string_set_guard_false engine cur cdef (some []) hg, if_pos rfl]
  have hpn : regex_string_parse engine cur cdef none =
      regex_string_set_commit cur cdef none := rfl
  rw [hpn, commit_no_validator cur cdef none hval]
  rfl

theorem invalid_input_quad_vs_regex_empty_witness :
    quad_string_set MUTT_YES (some []) = (MUTT_YES, CSR_ERR_INVALID) ∧
    regex_string_set engineAll (some none) cdefLax (some []) =
      { var := some none, cdef := cdefLax, err := none
        rc := CSR_SUCCESS ||| CSR_SUC_EMPTY } := by
  have h := invalid_input_quad_vs_regex_empty MUTT_YES engineAll cdefLax none rfl
    (fun cv h => Option.noConfusion h)
  exact ⟨h.1.1, h.2⟩

/-- C10: on a regex item whose storage is unset, string-set of empty or NULL
text returns `Success·Empty` (never `Success·NoChange`), the validator, when
present, is still consulted with a NULL candidate (an accepting validator
yields `Success·Empty`, a rejecting one the `CSR_INV_VALIDATOR` code built
from its verdict on NULL), and the storage remains unset. -/
theorem regex_unset_empty_success_empty (engine : RegexEngine) (cdef : ConfigDef)
    (value0 : Option CStr)
    (hempty : value0 = none ∨ value0 = some []) :
    (cdef.validator = none →
        regex_string_set engine (some none) cdef value0 =
          { var := some none, cdef := cdef, err := none
            rc := CSR_SUCCESS ||| CSR_SUC_EMPTY }) ∧
    (∀ vf, cdef.validator = some vf → vf none = CSR_SUCCESS →
        regex_string_set engine (some none) cdef value0 =
          { var := some none, cdef := cdef, err := none
            rc := CSR_SUCCESS ||| CSR_SUC_EMPTY } ∧
        (CSR_SUCCESS ||| CSR_SUC_EMPTY) &&& CSR_SUC_NO_CHANGE = 0 ∧
        (CSR_SUCCESS ||| CSR_SUC_EMPTY) &&& CSR_SUC_EMPTY = CSR_SUC_EMPTY) ∧
    (∀ vf, cdef.validator = some vf → CSR_RESULT (vf none) ≠ CSR_SUCCESS →
        regex_string_set engine (some none) cdef value0 =
          { var := some none, cdef := cdef, err := none
            rc := vf none ||| CSR_INV_VALIDATOR }) := by
  have hnv : (if value0 = some [] then none else value0) = none := by
    rcases hempty with h | h
    · rw [h]
      rfl
    · rw [h, if_pos rfl]
  have hg : string_set_guard none (if value0 = some [] then none else value0) = false := rfl
  have hmain : regex_string_set engine (some none) cdef value0 =
      regex_string_set_commit none cdef none := by
    rw [string_set_guard_false engine none cdef value0 hg, hnv]
    rfl
  refine ⟨?_, ?_, ?_⟩
  · intro h
    rw [hmain, commit_no_validator none cdef none h]
    rfl
  · intro vf hvf hvfnone
    refine ⟨?_, by decide, by decide⟩
    rw [hmain, commit_accept none cdef none vf hvf (by rw [hvfnone]; decide)]
    rw [hvfnone]
    rfl
  · intro vf hvf hr
    rw [hmain, commit_reject none cdef none vf hvf hr]

theorem regex_unset_empty_success_empty_witness :
    regex_string_set engineAll (some none) cdefAccept (some []) =
      { var := some none, cdef := cdefAccept, err := none
        rc := CSR_SUCCESS ||| CSR_SUC_EMPTY } ∧
    regex_string_set engineAll (some none) cdefVeto none =
      { var := some none, cdef := cdefVeto, err := none
        rc := vetoAll none ||| CSR_INV_VALIDATOR } := by
  have h1 := (regex_unset_empty_success_empty engineAll cdefAccept (some [])
    (Or.inr rfl)).2.1 acceptAll rfl rfl
  have h2 := (regex_unset_empty_success_empty engineAll cdefVeto none
    (Or.inl rfl)).2.2 vetoAll rfl (by simp only [vetoAll]; decide)
  exact ⟨h1.1, h2⟩

/-- C7: quad toggle maps No to Yes, Yes to No, AskNo to AskYes, AskYes to
AskNo; applying it twice (hence four times) is the identity on in-range
values, and no number of toggles moves a value between the pair `{No, Yes}`
and the pair `{AskNo, AskYes}`. -/
theorem quad_toggle_four_cycle :
    (quad_toggle MUTT_NO = MUTT_YES ∧ quad_toggle MUTT_YES = MUTT_NO ∧
     quad_toggle MUTT_ASKNO = MUTT_ASKYES ∧ quad_toggle MUTT_ASKYES = MUTT_ASKNO) ∧
    (∀ v, v < 4 → quad_toggle (quad_toggle v) = v ∧
       quad_toggle (quad_toggle (quad_toggle (quad_toggle v))) = v) ∧
    (∀ v n, v < 4 → (quad_toggle^[n] v < 2 ↔ v < 2)) := by
  refine ⟨by decide, ?_, ?_⟩
  · intro v hv
    interval_cases v <;> decide
  · intro v n hv
    exact (quad_toggle_iterate_inv v hv n).2

theorem quad_toggle_four_cycle_witness :
    (quad_toggle (quad_toggle MUTT_ASKNO) = MUTT_ASKNO) ∧
    (quad_toggle^[5] MUTT_ASKYES < 2 ↔ MUTT_ASKYES < 2) :=
  ⟨(quad_toggle_four_cycle.2.1 MUTT_ASKNO (by decide)).1,
   quad_toggle_four_cycle.2.2 MUTT_ASKYES 5 (by decide)⟩

/-- C3: a successful `regex_create` keeps the original text as the pattern,
strips a leading `!` and sets `not` exactly when the definition permits
negation and the text begins with `!`, compiles case-insensitively exactly
when case sensitivity is not forced and the remaining text contains no
uppercase letters, and requests no-submatch mode exactly when the definition
asks for it. -/
theorem regex_create_negation_smartcase (engine : RegexEngine) (str : CStr)
    (flags : RegexFlags) (r : Regex) (e : Option CStr)
    (h : regex_create engine str flags = (some r, e)) :
    r.pattern = str ∧
    r.not = (flags.allow_not && (str.head? == some '!')) ∧
    r.regex.src = (if flags.allow_not && (str.head? == some '!') then str.tail else str) ∧
    r.regex.icase =
      (!flags.match_case &&
        mutt_mb_is_lower
          (if flags.allow_not && (str.head? == some '!') then str.tail else str)) ∧
    r.regex.nosub = flags.nosub := by
  unfold regex_create at h
  split at h
  · injection h with h1 _
    injection h1 with h1
    subst h1
    refine ⟨rfl, ?_, ?_, ?_, rfl⟩
    · rw [regex_strip_eq]
    · rw [regex_strip_eq]
    · show (!flags.match_case && mutt_mb_is_lower str) = _
      by_cases hb : flags.allow_not && (str.head? == some '!')
      · rw [if_pos hb]
        cases str with
        | nil => simp at hb
        | cons c rest =>
            have hc : c = '!' := by
              simp only [List.head?, Bool.and_eq_true, beq_iff_eq, Option.some.injEq] at hb
              exact hb.2
            subst hc
            rw [List.tail_cons, mutt_mb_is_lower_bang]
      · rw [if_neg hb]
  · exact absurd h (by simp)

theorem regex_create_negation_smartcase_witness :
    rexBangA.pattern = ['!', 'a'] ∧
    rexBangA.not = (flagsLax.allow_not && (List.head? ['!', 'a'] == some '!')) ∧
    rexBangA.regex.src =
      (if flagsLax.allow_not && (List.head? ['!', 'a'] == some '!')
       then List.tail ['!', 'a'] else ['!', 'a']) ∧
    rexBangA.regex.icase =
      (!flagsLax.match_case &&
        mutt_mb_is_lower
          (if flagsLax.allow_not && (List.head? ['!', 'a'] == some '!')
           then List.tail ['!', 'a'] else ['!', 'a'])) ∧
    rexBangA.regex.nosub = flagsLax.nosub :=
  regex_create_negation_smartcase engineAll ['!', 'a'] flagsLax rexBangA none (by decide)

end NeomuttConfig
